import Mathlib

/-!
Shallow embedding of the pub/sub multiplexer actor of `src/client/pubsub.rs`
(`PubsubConnectionInner` and its helper methods).

The transport (`RespConnection`), the channel primitives (`futures::mpsc`,
`futures::oneshot`) and the protocol value type (`resp.rs`) are external to
the single source file; they are modelled explicitly:
  * the sink side of the transport is an oracle list `sendBehavior`
    consumed one entry per `start_send` call (an empty oracle means the
    sink is ready), plus a `sent` log of accepted wire commands;
  * the stream side of the transport is a list `recv` of inbound messages
    that are ready now, followed by either end-of-stream (`recv_end = true`)
    or not-ready (`recv_end = false`);
  * an mpsc sender (consumer delivery channel) is a channel id plus an
    `alive` flag recording whether the receiving end still exists;
    a successful `unbounded_send` is logged in `delivered`;
  * a oneshot sender (subscribe acknowledgment signal) is a signal id plus
    an `alive` flag; a successful `send` is logged in `resolved`.

Rust `Result`/`panic` outcomes of the actor's methods are represented by the
`Outcome` type: `ok b s` for `Ok(b)` in state `s`, `errorOut s` for `Err(())`
reached in state `s`, and `crashOut s` for a panic (an `expect` failure)
reached in state `s`.
-/

/-- Modelled from the spec: structured protocol value (the `resp.rs` module is
not among the sources; §6 describes arrays, bulk strings, etc.).  Bulk strings
are modelled as carrying their decoded text. -/
inductive RespValue where
  | Nil : RespValue
  | Array : List RespValue → RespValue
  | BulkString : String → RespValue
  | Error : String → RespValue
  | Integer : Int → RespValue
  | SimpleString : String → RespValue

/-- Modelled from the spec: `String::from_resp` (topic parsing; `resp.rs` is
not among the sources).  A field parses as a string when it is a bulk string
or a simple string; otherwise parsing fails. -/
def string_from_resp : RespValue → Option String
  | RespValue.BulkString str => some str
  | RespValue.SimpleString str => some str
  | _ => none

/-- Modelled from the spec: the consumer delivery channel
(`PubsubSink = mpsc::UnboundedSender<RespValue>`).  `alive` records whether
the receiving end (the topic stream) still exists. -/
structure PubsubSink where
  chanId : Nat
  alive : Bool
deriving DecidableEq

/-- Modelled from the spec: the one-shot acknowledgment signal
(`oneshot::Sender<()>`).  `alive` records whether the receiving end (the
deferred subscribe result held by the caller) still exists. -/
structure OneshotSender where
  sigId : Nat
  alive : Bool
deriving DecidableEq

/-- The closed set of events submitted by handles (`enum PubsubEvent`). -/
inductive PubsubEvent where
  | Subscribe : String → PubsubSink → OneshotSender → PubsubEvent
  | Unsubscribe : String → PubsubEvent
deriving DecidableEq

/-- One oracle entry for a `start_send` attempt on the transport sink:
accepted (`AsyncSink::Ready`), rejected with the message returned
(`AsyncSink::NotReady`), or a transport send error. -/
inductive SendRes where
  | ready : SendRes
  | notReady : SendRes
  | errS : SendRes
deriving DecidableEq

/-- The actor state (`struct PubsubConnectionInner`), together with the
explicit model of its external collaborators (transport oracle and logs,
queued events of `out_rx`, delivery and resolution logs). -/
structure PubsubConnectionInner where
  sendBehavior : List SendRes
  flushOk : Bool
  recv : List RespValue
  recv_end : Bool
  sent : List RespValue
  out_rx : List PubsubEvent
  subscriptions : List (String × PubsubSink)
  pending_subs : List (String × (PubsubSink × OneshotSender))
  send_pending : Option RespValue
  delivered : List (Nat × RespValue)
  resolved : List Nat

/-- Result of one of the actor's methods: `Ok(b)` with the updated state,
`Err(())` with the state reached when the error was raised, or a panic
(`expect` failure) with the state reached when the panic was raised. -/
inductive Outcome where
  | ok : Bool → PubsubConnectionInner → Outcome
  | errorOut : PubsubConnectionInner → Outcome
  | crashOut : PubsubConnectionInner → Outcome

/-- The state carried by an outcome. -/
def Outcome.state : Outcome → PubsubConnectionInner
  | Outcome.ok _ s => s
  | Outcome.errorOut s => s
  | Outcome.crashOut s => s

/-- Association-list lookup, modelling `HashMap::get` (first matching key). -/
def alookup {V : Type} (k : String) : List (String × V) → Option V
  | [] => none
  | p :: rest => if p.1 = k then some p.2 else alookup k rest

/-- Association-list removal, modelling `HashMap::remove`. -/
def aremove {V : Type} (k : String) (l : List (String × V)) : List (String × V) :=
  l.filter (fun p => p.1 != k)

/-- Association-list insertion, modelling `HashMap::insert` (replaces any
existing entry for the key). -/
def ainsert {V : Type} (k : String) (v : V) (l : List (String × V)) : List (String × V) :=
  (k, v) :: aremove k l

/-- Association-list membership, modelling `HashMap::contains_key`. -/
def acontains {V : Type} (k : String) (l : List (String × V)) : Bool :=
  (alookup k l).isSome

/-- `PubsubConnectionInner::do_send`: one `start_send` attempt on the
transport sink.  Returns `Ok(true)` when the sink accepted the message
(more can be sent), `Ok(false)` when the sink was full and the message was
stored in `send_pending`, `Err` on a transport send error. -/
def do_send (s : PubsubConnectionInner) (msg : RespValue) : Outcome :=
  match s.sendBehavior with
  | [] => Outcome.ok true { s with sent := s.sent ++ [msg] }
  | b :: rest =>
    match b with
    | SendRes.ready => Outcome.ok true { s with sendBehavior := rest, sent := s.sent ++ [msg] }
    | SendRes.notReady =>
        Outcome.ok false { s with sendBehavior := rest, send_pending := some msg }
    | SendRes.errS => Outcome.errorOut { s with sendBehavior := rest }

/-- `PubsubConnectionInner::do_flush`: `poll_complete` on the transport,
`true` meaning success (`flushOk` models the fallibility of the flush). -/
def do_flush (s : PubsubConnectionInner) : Bool :=
  s.flushOk

/-- The body of the event-draining loop of `handle_new_subs`: dispatch one
dequeued `PubsubEvent`.  A `Subscribe` first inserts
`(topic → (sender, signal))` into `pending_subs`, then the two-element wire
command is built and a send is attempted. -/
def handle_event (s : PubsubConnectionInner) (e : PubsubEvent) : Outcome :=
  match e with
  | PubsubEvent.Subscribe topic sender signal =>
      do_send { s with pending_subs := ainsert topic (sender, signal) s.pending_subs }
        (RespValue.Array [RespValue.BulkString "SUBSCRIBE", RespValue.BulkString topic])
  | PubsubEvent.Unsubscribe topic =>
      do_send s (RespValue.Array [RespValue.BulkString "UNSUBSCRIBE", RespValue.BulkString topic])

/-- The event-draining loop of `handle_new_subs`, polling `out_rx`.  When the
queue is exhausted, both `Async::Ready(None)` and `Async::NotReady` return
`Ok(flushing_req)`, so they are not distinguished here.  After any event is
dispatched the flushing flag is `true`. -/
def hns_loop : List PubsubEvent → Bool → PubsubConnectionInner → Outcome
  | [], flushing_req, s => Outcome.ok flushing_req s
  | e :: rest, _, s =>
    match handle_event { s with out_rx := rest } e with
    | Outcome.ok true s₁ => hns_loop rest true s₁
    | Outcome.ok false s₁ => Outcome.ok true s₁
    | r => r

/-- `PubsubConnectionInner::handle_new_subs`: first retry a pending buffered
command if any (stopping if the sink is still full), then drain the event
queue.  Returns `Ok(flushing_req)`. -/
def handle_new_subs (s : PubsubConnectionInner) : Outcome :=
  match s.send_pending with
  | some msg =>
    match do_send { s with send_pending := none } msg with
    | Outcome.ok true s₁ => hns_loop s₁.out_rx true s₁
    | Outcome.ok false s₁ => Outcome.ok true s₁
    | r => r
  | none => hns_loop s.out_rx false s

/-- The dispatch part of `PubsubConnectionInner::handle_message`, after the
inbound value has been destructured into type tag (`message_type`), parsed
topic and payload. -/
def dispatch (s : PubsubConnectionInner) (message_type topic : String) (m : RespValue) :
    Outcome :=
  if message_type = "subscribe" then
    match alookup topic s.pending_subs with
    | some (sender, signal) =>
      let s₁ := { s with pending_subs := aremove topic s.pending_subs,
                         subscriptions := ainsert topic sender s.subscriptions }
      if signal.alive then Outcome.ok true { s₁ with resolved := signal.sigId :: s₁.resolved }
      else Outcome.errorOut s₁
    | none => Outcome.ok true s
  else if message_type = "unsubscribe" then
    let s₁ := if acontains topic s.subscriptions
              then { s with subscriptions := aremove topic s.subscriptions }
              else s
    if s₁.subscriptions.isEmpty then Outcome.ok false s₁ else Outcome.ok true s₁
  else if message_type = "message" then
    match alookup topic s.subscriptions with
    | some sender =>
      if sender.alive then
        Outcome.ok true { s with delivered := (sender.chanId, m) :: s.delivered }
      else Outcome.crashOut s
    | none => Outcome.ok true s
  else Outcome.ok true s

/-- `PubsubConnectionInner::handle_message`: destructure the inbound value
(the three `Vec::pop` calls succeed with a fourth returning `None` exactly
for a three-element array, yielding payload, topic, type tag in that order),
parse the topic as a string and require a bulk-string type tag; any failure
is `Err(())`.  Then dispatch.  `Ok(false)` signals actor completion. -/
def handle_message (s : PubsubConnectionInner) (msg : RespValue) : Outcome :=
  match msg with
  | RespValue.Array [message_type, topic, m] =>
    match string_from_resp topic, message_type with
    | some topicStr, RespValue.BulkString bytes => dispatch s bytes topicStr m
    | _, _ => Outcome.errorOut s
  | _ => Outcome.errorOut s

/-- The inbound-draining loop of `handle_messages`, consuming the messages
that are ready; when they are exhausted, end-of-stream (`recv_end = true`,
i.e. `Async::Ready(None)`) yields `Ok(false)` and not-ready yields
`Ok(true)`. -/
def handle_messages_go : List RespValue → PubsubConnectionInner → Outcome
  | [], s => if s.recv_end then Outcome.ok false s else Outcome.ok true s
  | m :: rest, s =>
    match handle_message { s with recv := rest } m with
    | Outcome.ok true s₁ => handle_messages_go rest s₁
    | r => r

/-- `PubsubConnectionInner::handle_messages`: drain the ready inbound
messages.  `Ok(true)` means there are still valid subscriptions at the end;
`Ok(false)` means the whole actor can be dropped. -/
def handle_messages (s : PubsubConnectionInner) : Outcome :=
  handle_messages_go s.recv s

/-- Result of one scheduling tick (`<PubsubConnectionInner as Future>::poll`):
`Async::NotReady` (runnable later), `Async::Ready(())` (terminal), or the
error/panic outcomes. -/
inductive PollOutcome where
  | notReady : PubsubConnectionInner → PollOutcome
  | readyDone : PubsubConnectionInner → PollOutcome
  | errorOut : PubsubConnectionInner → PollOutcome
  | crashOut : PubsubConnectionInner → PollOutcome

/-- `<PubsubConnectionInner as Future>::poll`: one scheduling tick —
outbound drain, flush if anything was sent or buffered, then inbound
drain; terminal exactly when the inbound drain returns `Ok(false)`. -/
def poll (s : PubsubConnectionInner) : PollOutcome :=
  match handle_new_subs s with
  | Outcome.ok flush_req s₁ =>
    if flush_req && !(do_flush s₁) then PollOutcome.errorOut s₁
    else
      match handle_messages s₁ with
      | Outcome.ok true s₂ => PollOutcome.notReady s₂
      | Outcome.ok false s₂ => PollOutcome.readyDone s₂
      | Outcome.errorOut s₂ => PollOutcome.errorOut s₂
      | Outcome.crashOut s₂ => PollOutcome.crashOut s₂
  | Outcome.errorOut s₁ => PollOutcome.errorOut s₁
  | Outcome.crashOut s₁ => PollOutcome.crashOut s₁

/-- One observable actor step: the dispatch of one dequeued `OutgoingEvent`
(the body of the outbound drain loop) or the handling of one inbound
message. -/
inductive ActorInput where
  | ev : PubsubEvent → ActorInput
  | msg : RespValue → ActorInput

/-- Run one observable actor step. -/
def runStep (s : PubsubConnectionInner) (i : ActorInput) : Outcome :=
  match i with
  | ActorInput.ev e => handle_event s e
  | ActorInput.msg m => handle_message s m

/-- Run a sequence of observable actor steps, stopping (with `none`) as soon
as a step does not return `Ok(true)`/`Ok(false)` continuing state. -/
def runTrace : PubsubConnectionInner → List ActorInput → Option PubsubConnectionInner
  | s, [] => some s
  | s, i :: rest =>
    match runStep s i with
    | Outcome.ok _ s₁ => runTrace s₁ rest
    | _ => none

/-- A topic is never simultaneously present in `subscriptions` and
`pending_subs`. -/
def disjointSP (s : PubsubConnectionInner) : Bool :=
  s.pending_subs.all (fun p => !(acontains p.1 s.subscriptions))

/-- An inbound value is well formed when it is a three-element array whose
topic field parses as a string and whose type-tag field is a bulk string. -/
def wellFormed : RespValue → Bool
  | RespValue.Array [message_type, topic, _] =>
      (string_from_resp topic).isSome &&
        (match message_type with
         | RespValue.BulkString _ => true
         | _ => false)
  | _ => false

/-- An inbound value is an unsubscribe acknowledgment that reaches the
unsubscribe branch of the dispatch: a well-formed array whose bulk-string
type tag is `unsubscribe`. -/
def isUnsubAck : RespValue → Bool
  | RespValue.Array [RespValue.BulkString tag, topic, _] =>
      tag == "unsubscribe" && (string_from_resp topic).isSome
  | _ => false

/-- `PubsubConnectionInner::new`: the actor starts with empty subscription
maps and an empty backpressure slot; the transport model and queued events
are parameters, the observation logs start empty. -/
def PubsubConnectionInner.new (sendBehavior : List SendRes) (flushOk : Bool)
    (recv : List RespValue) (recv_end : Bool) (out_rx : List PubsubEvent) :
    PubsubConnectionInner :=
  { sendBehavior := sendBehavior, flushOk := flushOk, recv := recv,
    recv_end := recv_end, sent := [], out_rx := out_rx, subscriptions := [],
    pending_subs := [], send_pending := none, delivered := [], resolved := [] }

/-- Guard for the amended disjointness invariant: every step is allowed
except the dispatch of a `Subscribe` event for a topic currently present in
`subscriptions`. -/
def stepAllowed (s : PubsubConnectionInner) : ActorInput → Bool
  | ActorInput.ev (PubsubEvent.Subscribe t _ _) => !(acontains t s.subscriptions)
  | _ => true

/-- A quiescent state used by concrete witnesses: empty maps, ready
transport sink, nothing queued, nothing ready inbound. -/
def baseState : PubsubConnectionInner :=
  PubsubConnectionInner.new [] true [] false []

/-- A state tracking topic `a` whose consumer delivery channel is closed
(the topic stream was dropped, its unsubscribe not yet acknowledged). -/
def C1state : PubsubConnectionInner :=
  { baseState with subscriptions := [("a", ⟨1, false⟩)] }

/-- An inbound published message for topic `a`. -/
def C1msg : RespValue :=
  RespValue.Array [RespValue.BulkString "message", RespValue.BulkString "a",
    RespValue.BulkString "hi"]

/-- An inbound unsubscribe acknowledgment for the untracked topic `x`. -/
def C2msg : RespValue :=
  RespValue.Array [RespValue.BulkString "unsubscribe", RespValue.BulkString "x",
    RespValue.Integer 0]

/-- A state tracking one live subscription for topic `b`. -/
def W2s : PubsubConnectionInner :=
  { baseState with subscriptions := [("b", ⟨2, true⟩)] }

/-- Trace refuting the claimed disjointness invariant: subscribe to `a`,
receive the acknowledgment (moving `a` into `subscriptions`), then a second
`Subscribe` event for `a` is dequeued while `a` is still subscribed. -/
def C3trace : List ActorInput :=
  [ActorInput.ev (PubsubEvent.Subscribe "a" ⟨1, true⟩ ⟨1, true⟩),
   ActorInput.msg (RespValue.Array [RespValue.BulkString "subscribe",
     RespValue.BulkString "a", RespValue.Integer 1]),
   ActorInput.ev (PubsubEvent.Subscribe "a" ⟨2, true⟩ ⟨2, true⟩)]

/-- A state with one live subscription (`b`) and one pending subscription
(`p`), satisfying the disjointness invariant. -/
def W3s : PubsubConnectionInner :=
  { baseState with subscriptions := [("b", ⟨2, true⟩)],
                   pending_subs := [("p", (⟨3, true⟩, ⟨3, true⟩))] }

/-- `W3s` after a `Subscribe` event for the fresh topic `a` is dispatched. -/
def W3sAfter : PubsubConnectionInner :=
  { W3s with
      pending_subs := [("a", (⟨4, true⟩, ⟨4, true⟩)), ("p", (⟨3, true⟩, ⟨3, true⟩))],
      sent := [RespValue.Array [RespValue.BulkString "SUBSCRIBE", RespValue.BulkString "a"]] }

/-- `baseState` after a `Subscribe` event for topic `n` is dispatched on a
ready sink. -/
def W5sAfter : PubsubConnectionInner :=
  { baseState with
      pending_subs := [("n", (⟨5, true⟩, ⟨5, true⟩))],
      sent := [RespValue.Array [RespValue.BulkString "SUBSCRIBE", RespValue.BulkString "n"]] }

/-- A state with a buffered outbound command and a sink that will reject the
next send attempt. -/
def W6s : PubsubConnectionInner :=
  { baseState with send_pending := some (RespValue.BulkString "w"),
                   sendBehavior := [SendRes.notReady],
                   out_rx := [PubsubEvent.Unsubscribe "z"] }

/-- A state with one pending subscription for topic `t` whose acknowledgment
receiver is still alive. -/
def W7s : PubsubConnectionInner :=
  { baseState with pending_subs := [("t", (⟨6, true⟩, ⟨6, true⟩))] }

/-- A state with one pending subscription for topic `t` whose acknowledgment
receiver has been dropped. -/
def W10s : PubsubConnectionInner :=
  { baseState with pending_subs := [("t", (⟨7, true⟩, ⟨7, false⟩))] }

/-- An inbound subscribe acknowledgment for topic `t`. -/
def subAckT : RespValue :=
  RespValue.Array [RespValue.BulkString "subscribe", RespValue.BulkString "t",
    RespValue.Integer 1]

/-! ### Association-list lemmas -/

theorem alookup_aremove {V : Type} (x k : String) (l : List (String × V)) :
    alookup x (aremove k l) = if x = k then none else alookup x l := by
  induction l with
  | nil => by_cases h : x = k <;> simp [aremove, alookup, h]
  | cons p rest ih =>
    simp only [aremove, List.filter_cons] at ih ⊢
    by_cases hpk : p.1 = k
    · have hdrop : (p.1 != k) = false := by simp [hpk]
      by_cases hxk : x = k
      · simpa [hdrop, hxk] using ih
      · have hpx : ¬ p.1 = x := by rw [hpk]; exact fun h => hxk h.symm
        simpa [hdrop, hxk, alookup, hpx] using ih
    · have hkeep : (p.1 != k) = true := by simpa [bne_iff_ne] using hpk
      by_cases hpx : p.1 = x
      · have hxk : ¬ x = k := fun h => hpk (by rw [hpx, h])
        simp [hkeep, hxk, alookup, hpx]
      · by_cases hxk : x = k
        · simpa [hkeep, hxk, alookup, hpx, hpk] using ih
        · simpa [hkeep, hxk, alookup, hpx] using ih

theorem alookup_ainsert {V : Type} (x k : String) (v : V) (l : List (String × V)) :
    alookup x (ainsert k v l) = if k = x then some v else alookup x l := by
  by_cases h : k = x
  · simp [ainsert, alookup, h]
  · have hxk : ¬ x = k := fun hh => h hh.symm
    simp [ainsert, alookup, h, alookup_aremove, hxk]

theorem acontains_aremove {V : Type} (x k : String) (l : List (String × V)) :
    acontains x (aremove k l) = if x = k then false else acontains x l := by
  by_cases h : x = k <;> simp [acontains, alookup_aremove, h]

theorem acontains_ainsert {V : Type} (x k : String) (v : V) (l : List (String × V)) :
    acontains x (ainsert k v l) = if k = x then true else acontains x l := by
  by_cases h : k = x <;> simp [acontains, alookup_ainsert, h]

theorem mem_aremove {V : Type} {p : String × V} {k : String} {l : List (String × V)} :
    p ∈ aremove k l ↔ p ∈ l ∧ p.1 ≠ k := by
  simp [aremove, List.mem_filter]

/-! ### Frame lemmas: which state fields each operation can touch -/

theorem do_send_frame (s : PubsubConnectionInner) (m : RespValue) :
    (do_send s m).state.subscriptions = s.subscriptions ∧
    (do_send s m).state.pending_subs = s.pending_subs ∧
    (do_send s m).state.recv = s.recv ∧
    (do_send s m).state.recv_end = s.recv_end ∧
    (do_send s m).state.out_rx = s.out_rx ∧
    (do_send s m).state.flushOk = s.flushOk := by
  unfold do_send
  cases h : s.sendBehavior with
  | nil => simp [Outcome.state]
  | cons b rest => cases b <;> simp [Outcome.state]

theorem handle_event_frame (s : PubsubConnectionInner) (e : PubsubEvent) :
    (handle_event s e).state.recv = s.recv ∧
    (handle_event s e).state.recv_end = s.recv_end ∧
    (handle_event s e).state.flushOk = s.flushOk := by
  cases e with
  | Subscribe t k g =>
    have h := do_send_frame { s with pending_subs := ainsert t (k, g) s.pending_subs }
      (RespValue.Array [RespValue.BulkString "SUBSCRIBE", RespValue.BulkString t])
    simpa [handle_event] using ⟨h.2.2.1, h.2.2.2.1, h.2.2.2.2.2⟩
  | Unsubscribe t =>
    have h := do_send_frame s
      (RespValue.Array [RespValue.BulkString "UNSUBSCRIBE", RespValue.BulkString t])
    simpa [handle_event] using ⟨h.2.2.1, h.2.2.2.1, h.2.2.2.2.2⟩

/-! ### Claims about the message handler -/

/-- Claim C1, code behavior: for a topic with a live entry in
`subscriptions` whose consumer delivery channel has been closed, an inbound
`message` for that topic makes `handle_message` panic (the
`expect` on `unbounded_send` in the `message` branch) instead of
dropping the single message and continuing as the claim states. -/
theorem pubsub_C1_code_behavior (s : PubsubConnectionInner) (t : String)
    (k : PubsubSink) (payload : RespValue)
    (hfind : alookup t s.subscriptions = some k) (hdead : k.alive = false) :
    handle_message s
      (RespValue.Array [RespValue.BulkString "message", RespValue.BulkString t, payload])
      = Outcome.crashOut s := by
  have h1 : ¬ ("message" = "subscribe") := by decide
  have h2 : ¬ ("message" = "unsubscribe") := by decide
  simp [handle_message, string_from_resp, dispatch, h1, h2, hfind, hdead]

/-- Claim C1 witness: concrete evaluation at the failing input — topic `a`
is tracked, its channel closed, and an inbound message for `a` panics. -/
theorem pubsub_C1_code_behavior_witness :
    handle_message C1state C1msg = Outcome.crashOut C1state :=
  pubsub_C1_code_behavior C1state "a" ⟨1, false⟩ (RespValue.BulkString "hi") rfl rfl

/-- Claim C2 counterexample: in a state whose `subscriptions` map is empty,
an unsubscribe acknowledgment for the untracked topic `x` returns
`Ok(false)` — signalling actor completion — and a full scheduling tick on
such a state reaches the terminal state, contradicting the claim that the
acknowledgment never moves the actor to its terminal state. -/
theorem pubsub_C2_cex :
    handle_message baseState C2msg = Outcome.ok false baseState ∧
    poll { baseState with recv := [C2msg] } = PollOutcome.readyDone baseState ∧
    Outcome.ok false baseState ≠ Outcome.ok true baseState := by
  refine ⟨rfl, rfl, fun h => ?_⟩
  exact Bool.noConfusion (Outcome.ok.inj h).1

/-- Claim C2 (amended): receiving an unsubscribe acknowledgment for a topic
not present in `subscriptions` produces no error and changes no state, and
the actor does not reach its terminal state provided `subscriptions` is
non-empty; when `subscriptions` is already empty the handler signals actor
completion (`Ok(false)`), exactly as after any unsubscribe acknowledgment
processed with `subscriptions` empty. -/
theorem pubsub_C2_amended (s : PubsubConnectionInner) (t : String) (payload : RespValue)
    (habs : alookup t s.subscriptions = none) :
    handle_message s
      (RespValue.Array [RespValue.BulkString "unsubscribe", RespValue.BulkString t, payload])
      = Outcome.ok (!s.subscriptions.isEmpty) s := by
  have h1 : ¬ ("unsubscribe" = "subscribe") := by decide
  have hc : acontains t s.subscriptions = false := by simp [acontains, habs]
  cases hemp : s.subscriptions.isEmpty <;>
    simp [handle_message, string_from_resp, dispatch, h1, hc, hemp]

/-- Claim C2 witness: with one live subscription for `b`, an unsubscribe
acknowledgment for the untracked topic `x` is a no-op and the actor stays
non-terminal. -/
theorem pubsub_C2_amended_witness :
    handle_message W2s
      (RespValue.Array [RespValue.BulkString "unsubscribe", RespValue.BulkString "x",
        RespValue.Integer 0])
      = Outcome.ok true W2s :=
  pubsub_C2_amended W2s "x" (RespValue.Integer 0) rfl

/-- Claim C7: a subscribe acknowledgment for a topic present in
`pending_subs` removes that topic from `pending_subs`, inserts its channel
into `subscriptions` and resolves the one-shot acknowledgment signal
(when the signal's receiver is still alive — the dropped-receiver case is
claim C10); a subscribe acknowledgment for a topic not in `pending_subs`
is ignored with no state change. -/
theorem pubsub_C7 (s : PubsubConnectionInner) (t : String) (k : PubsubSink)
    (g : OneshotSender) (payload : RespValue) :
    (alookup t s.pending_subs = some (k, g) → g.alive = true →
      handle_message s
        (RespValue.Array [RespValue.BulkString "subscribe", RespValue.BulkString t, payload])
        = Outcome.ok true
            { s with pending_subs := aremove t s.pending_subs,
                     subscriptions := ainsert t k s.subscriptions,
                     resolved := g.sigId :: s.resolved }) ∧
    (alookup t s.pending_subs = none →
      handle_message s
        (RespValue.Array [RespValue.BulkString "subscribe", RespValue.BulkString t, payload])
        = Outcome.ok true s) := by
  constructor
  · intro hfind halive
    simp [handle_message, string_from_resp, dispatch, hfind, halive]
  · intro habs
    simp [handle_message, string_from_resp, dispatch, habs]

/-- Claim C7 witness: concrete acknowledgment for pending topic `t` moves
its channel into `subscriptions` and resolves signal 6. -/
theorem pubsub_C7_witness :
    handle_message W7s subAckT
      = Outcome.ok true
          { W7s with pending_subs := [], subscriptions := [("t", ⟨6, true⟩)],
                     resolved := [6] } :=
  (pubsub_C7 W7s "t" ⟨6, true⟩ ⟨6, true⟩ (RespValue.Integer 1)).1 rfl rfl

/-- Claim C9: a well-formed three-element inbound array whose bulk-string
type tag is neither `subscribe` nor `unsubscribe` nor `message` is silently
ignored: no protocol error, no state change, and the handler continues
(`Ok(true)`). -/
theorem pubsub_C9 (s : PubsubConnectionInner) (tag t : String) (payload : RespValue)
    (h1 : tag ≠ "subscribe") (h2 : tag ≠ "unsubscribe") (h3 : tag ≠ "message") :
    handle_message s
      (RespValue.Array [RespValue.BulkString tag, RespValue.BulkString t, payload])
      = Outcome.ok true s := by
  simp [handle_message, string_from_resp, dispatch, h1, h2, h3]

/-- Claim C9 witness: an inbound array tagged `pong` is ignored. -/
theorem pubsub_C9_witness :
    handle_message baseState
      (RespValue.Array [RespValue.BulkString "pong", RespValue.BulkString "a",
        RespValue.Integer 0])
      = Outcome.ok true baseState :=
  pubsub_C9 baseState "pong" "a" (RespValue.Integer 0) (by decide) (by decide) (by decide)

/-- Claim C10: a subscribe acknowledgment for a topic in `pending_subs`
whose one-shot acknowledgment receiver has been dropped is a fatal error
(`Err`), raised after the topic's channel has already been moved into
`subscriptions`. -/
theorem pubsub_C10 (s : PubsubConnectionInner) (t : String) (k : PubsubSink)
    (g : OneshotSender) (payload : RespValue)
    (hfind : alookup t s.pending_subs = some (k, g)) (hdead : g.alive = false) :
    handle_message s
      (RespValue.Array [RespValue.BulkString "subscribe", RespValue.BulkString t, payload])
      = Outcome.errorOut
          { s with pending_subs := aremove t s.pending_subs,
                   subscriptions := ainsert t k s.subscriptions } := by
  simp [handle_message, string_from_resp, dispatch, hfind, hdead]

/-- Claim C10 witness: concrete acknowledgment for pending topic `t` with a
dropped receiver errors out after moving the channel into
`subscriptions`. -/
theorem pubsub_C10_witness :
    handle_message W10s subAckT
      = Outcome.errorOut
          { W10s with pending_subs := [], subscriptions := [("t", ⟨7, true⟩)] } :=
  pubsub_C10 W10s "t" ⟨7, true⟩ ⟨7, false⟩ (RespValue.Integer 1) rfl rfl

/-- Case analysis of a successful `do_send`: the maps are untouched, an
accepted send appends the message to the `sent` log, a rejected send stores
it in `send_pending`. -/
theorem do_send_cases (s : PubsubConnectionInner) (m : RespValue) (b : Bool)
    (s₁ : PubsubConnectionInner) (h : do_send s m = Outcome.ok b s₁) :
    s₁.pending_subs = s.pending_subs ∧ s₁.subscriptions = s.subscriptions ∧
    s₁.out_rx = s.out_rx ∧
    (b = true → s₁.sent = s.sent ++ [m]) ∧
    (b = false → s₁.send_pending = some m) := by
  unfold do_send at h
  cases hsb : s.sendBehavior with
  | nil =>
    rw [hsb] at h
    simp at h
    obtain ⟨hb, hs⟩ := h
    subst hb; subst hs
    simp
  | cons hd tlb =>
    rw [hsb] at h
    cases hd <;> simp at h <;>
      [skip; skip] <;> {
        obtain ⟨hb, hs⟩ := h
        subst hb; subst hs
        simp
      }

/-- A failing `do_send` leaves the maps untouched. -/
theorem do_send_err (s : PubsubConnectionInner) (m : RespValue)
    (s₁ : PubsubConnectionInner) (h : do_send s m = Outcome.errorOut s₁) :
    s₁.pending_subs = s.pending_subs ∧ s₁.subscriptions = s.subscriptions := by
  unfold do_send at h
  cases hsb : s.sendBehavior with
  | nil => rw [hsb] at h; simp at h
  | cons hd tlb =>
    rw [hsb] at h
    cases hd <;> simp at h
    subst h
    simp

/-- Claim C4: every inbound value that is not an array, or is an array whose
length is not exactly three, or whose topic field does not parse as a
string, or whose type-tag field is not a bulk string, makes the message
handler return `Err` (actor-fatal); such a value at the head of the inbound
drain makes the whole drain fail, which terminates the actor (and with it
every topic stream of the connection). -/
theorem pubsub_C4 (s : PubsubConnectionInner) (v : RespValue) (rest : List RespValue)
    (hmal : wellFormed v = false) :
    handle_message s v = Outcome.errorOut s ∧
    handle_messages_go (v :: rest) s = Outcome.errorOut { s with recv := rest } := by
  have hmain : ∀ s' : PubsubConnectionInner, handle_message s' v = Outcome.errorOut s' := by
    intro s'
    cases v with
    | Nil => rfl
    | BulkString str => rfl
    | Error str => rfl
    | Integer n => rfl
    | SimpleString str => rfl
    | Array items =>
      rcases items with _ | ⟨a, _ | ⟨b, _ | ⟨c, _ | ⟨d, tl⟩⟩⟩⟩
      · rfl
      · rfl
      · rfl
      · cases hb : string_from_resp b with
        | none => simp [handle_message, hb]
        | some str =>
          cases a with
          | BulkString bytes => simp [wellFormed, hb] at hmal
          | Nil => simp [handle_message, hb]
          | Array l₂ => simp [handle_message, hb]
          | Error e₂ => simp [handle_message, hb]
          | Integer n₂ => simp [handle_message, hb]
          | SimpleString s₂ => simp [handle_message, hb]
      · rfl
  refine ⟨hmain s, ?_⟩
  simp [handle_messages_go, hmain { s with recv := rest }]

/-- Claim C4 witness: a non-array inbound value is actor-fatal. -/
theorem pubsub_C4_witness :
    wellFormed (RespValue.Integer 5) = false ∧
    handle_message baseState (RespValue.Integer 5) = Outcome.errorOut baseState ∧
    handle_messages_go [RespValue.Integer 5] baseState = Outcome.errorOut baseState :=
  ⟨rfl, (pubsub_C4 baseState (RespValue.Integer 5) [] rfl).1,
    (pubsub_C4 baseState (RespValue.Integer 5) [] rfl).2⟩

/-- Claim C5: the outbound drain translates `Subscribe(topic, chan, ack)`
into the wire array `["SUBSCRIBE", topic]` and `Unsubscribe(topic)` into
`["UNSUBSCRIBE", topic]`, and a `Subscribe` event's entry
`(topic → (chan, ack))` is in `pending_subs` at the moment of dequeue,
before the send is attempted: it is present whether the send is accepted
(`b = true`, command in the `sent` log), rejected (`b = false`, command
buffered in `send_pending`), or fails (`errorOut`). -/
theorem pubsub_C5 (s : PubsubConnectionInner) (t : String) (k : PubsubSink)
    (g : OneshotSender) :
    (∀ b s₁, handle_event s (PubsubEvent.Subscribe t k g) = Outcome.ok b s₁ →
      alookup t s₁.pending_subs = some (k, g) ∧
      (b = true → s₁.sent = s.sent ++
        [RespValue.Array [RespValue.BulkString "SUBSCRIBE", RespValue.BulkString t]]) ∧
      (b = false → s₁.send_pending = some
        (RespValue.Array [RespValue.BulkString "SUBSCRIBE", RespValue.BulkString t]))) ∧
    (∀ s₁, handle_event s (PubsubEvent.Subscribe t k g) = Outcome.errorOut s₁ →
      alookup t s₁.pending_subs = some (k, g)) ∧
    (∀ b s₁, handle_event s (PubsubEvent.Unsubscribe t) = Outcome.ok b s₁ →
      s₁.pending_subs = s.pending_subs ∧
      (b = true → s₁.sent = s.sent ++
        [RespValue.Array [RespValue.BulkString "UNSUBSCRIBE", RespValue.BulkString t]]) ∧
      (b = false → s₁.send_pending = some
        (RespValue.Array [RespValue.BulkString "UNSUBSCRIBE", RespValue.BulkString t]))) := by
  refine ⟨?_, ?_, ?_⟩
  · intro b s₁ h
    unfold handle_event at h
    have hc := do_send_cases _ _ _ _ h
    refine ⟨?_, hc.2.2.2.1, hc.2.2.2.2⟩
    rw [hc.1]
    simp [alookup_ainsert]
  · intro s₁ h
    unfold handle_event at h
    have hc := do_send_err _ _ _ h
    rw [hc.1]
    simp [alookup_ainsert]
  · intro b s₁ h
    unfold handle_event at h
    have hc := do_send_cases _ _ _ _ h
    exact ⟨hc.1, hc.2.2.2.1, hc.2.2.2.2⟩

/-- Claim C5 witness: dispatching `Subscribe("n", chan 5, sig 5)` on a ready
sink leaves `("n" → (chan 5, sig 5))` in `pending_subs` and the wire command
`["SUBSCRIBE", "n"]` in the `sent` log. -/
theorem pubsub_C5_witness :
    alookup "n" W5sAfter.pending_subs = some (⟨5, true⟩, ⟨5, true⟩) ∧
    W5sAfter.sent
      = [RespValue.Array [RespValue.BulkString "SUBSCRIBE", RespValue.BulkString "n"]] := by
  have h := (pubsub_C5 baseState "n" ⟨5, true⟩ ⟨5, true⟩).1 true W5sAfter rfl
  exact ⟨h.1, by simpa using h.2.1 rfl⟩

/-- Claim C6: when `send_pending` holds a buffered command and the transport
sink still rejects it, the outbound drain retries that command first
(consuming exactly one send attempt), dequeues no further event in the tick
(`out_rx` unchanged), and leaves the single buffered command in place — the
depth-1 backpressure slot (`send_pending` is an `Option`, holding at most
one command by construction, mirroring the source field type). -/
theorem pubsub_C6 (s : PubsubConnectionInner) (m : RespValue) (rest : List SendRes)
    (hpend : s.send_pending = some m) (hfull : s.sendBehavior = SendRes.notReady :: rest) :
    handle_new_subs s
      = Outcome.ok true { s with sendBehavior := rest, send_pending := some m } := by
  obtain ⟨sb, fo, rv, re, snt, orx, subs, pend, sp, del, res⟩ := s
  simp only at hpend hfull
  subst hpend; subst hfull
  rfl

/-- Claim C6 witness: a buffered command on a still-full sink is retried,
kept buffered, and the queued `Unsubscribe` event is not dequeued. -/
theorem pubsub_C6_witness :
    handle_new_subs W6s
      = Outcome.ok true
          { W6s with sendBehavior := [], send_pending := some (RespValue.BulkString "w") } :=
  pubsub_C6 W6s (RespValue.BulkString "w") [] rfl rfl


/-! ### Disjointness of `subscriptions` and `pending_subs` (claim C3) -/

/-- Membership formulation of the disjointness invariant. -/
theorem disjointSP_iff (s : PubsubConnectionInner) :
    disjointSP s = true ↔
      ∀ p ∈ s.pending_subs, acontains p.1 s.subscriptions = false := by
  simp [disjointSP, List.all_eq_true]

/-- The dispatch of one inbound message preserves disjointness of the two
subscription maps. -/
theorem dispatch_disjoint (s : PubsubConnectionInner) (mt t : String) (m : RespValue)
    (b : Bool) (s₁ : PubsubConnectionInner)
    (hinv : disjointSP s = true) (h : dispatch s mt t m = Outcome.ok b s₁) :
    disjointSP s₁ = true := by
  rw [disjointSP_iff] at hinv ⊢
  by_cases h1 : mt = "subscribe"
  · subst h1
    simp only [dispatch, if_pos rfl] at h
    cases hf : alookup t s.pending_subs with
    | none =>
      rw [hf] at h
      simp at h
      obtain ⟨-, hs⟩ := h
      subst hs
      exact hinv
    | some kg =>
      obtain ⟨kk, gg⟩ := kg
      rw [hf] at h
      by_cases hga : gg.alive
      · simp [hga] at h
        obtain ⟨-, hs⟩ := h
        subst hs
        intro p hp
        replace hp : p ∈ aremove t s.pending_subs := hp
        have hm := mem_aremove.mp hp
        show acontains p.1 (ainsert t kk s.subscriptions) = false
        rw [acontains_ainsert]
        rw [if_neg (fun hh => hm.2 hh.symm)]
        exact hinv p hm.1
      · simp [hga] at h
  · by_cases h2 : mt = "unsubscribe"
    · subst h2
      have hrem : ∀ p ∈ s.pending_subs, acontains p.1 (aremove t s.subscriptions) = false := by
        intro p hp
        rw [acontains_aremove]
        by_cases hpt : p.1 = t
        · rw [if_pos hpt]
        · rw [if_neg hpt]
          exact hinv p hp
      simp only [dispatch, if_neg h1, if_pos rfl] at h
      by_cases hc : acontains t s.subscriptions
      · by_cases hemp : (aremove t s.subscriptions).isEmpty
        · simp [hc, hemp] at h
          obtain ⟨-, hs⟩ := h
          subst hs
          exact hrem
        · simp [hc, hemp] at h
          obtain ⟨-, hs⟩ := h
          subst hs
          exact hrem
      · by_cases hemp : s.subscriptions.isEmpty
        · simp [hc, hemp] at h
          obtain ⟨-, hs⟩ := h
          subst hs
          exact hinv
        · simp [hc, hemp] at h
          obtain ⟨-, hs⟩ := h
          subst hs
          exact hinv
    · by_cases h3 : mt = "message"
      · subst h3
        simp only [dispatch, if_neg h1, if_neg h2, if_pos rfl] at h
        cases hf : alookup t s.subscriptions with
        | none =>
          rw [hf] at h
          simp at h
          obtain ⟨-, hs⟩ := h
          subst hs
          exact hinv
        | some snd =>
          rw [hf] at h
          by_cases ha : snd.alive
          · simp [ha] at h
            obtain ⟨-, hs⟩ := h
            subst hs
            exact hinv
          · simp [ha] at h
      · simp only [dispatch, if_neg h1, if_neg h2, if_neg h3] at h
        simp at h
        obtain ⟨-, hs⟩ := h
        subst hs
        exact hinv

/-- Handling one inbound message preserves disjointness of the two
subscription maps. -/
theorem handle_message_disjoint (s : PubsubConnectionInner) (m : RespValue)
    (b : Bool) (s₁ : PubsubConnectionInner)
    (hinv : disjointSP s = true) (h : handle_message s m = Outcome.ok b s₁) :
    disjointSP s₁ = true := by
  cases m with
  | Nil => simp [handle_message] at h
  | BulkString str => simp [handle_message] at h
  | Error str => simp [handle_message] at h
  | Integer n => simp [handle_message] at h
  | SimpleString str => simp [handle_message] at h
  | Array items =>
    rcases items with _ | ⟨a, _ | ⟨b₂, _ | ⟨c, _ | ⟨d, tl⟩⟩⟩⟩
    · simp [handle_message] at h
    · simp [handle_message] at h
    · simp [handle_message] at h
    · cases hb : string_from_resp b₂ with
      | none => simp [handle_message, hb] at h
      | some str =>
        cases a with
        | BulkString bytes =>
          simp only [handle_message, hb] at h
          exact dispatch_disjoint s bytes str c b s₁ hinv h
        | Nil => simp [handle_message, hb] at h
        | Array l₂ => simp [handle_message, hb] at h
        | Error e₂ => simp [handle_message, hb] at h
        | Integer n₂ => simp [handle_message, hb] at h
        | SimpleString s₂ => simp [handle_message, hb] at h
    · simp [handle_message] at h

/-- Claim C3 counterexample: starting from a fresh actor, the trace
subscribe `a` → subscribe acknowledgment for `a` → second `Subscribe` event
for `a` runs without error and ends in a state where `a` is present in both
`subscriptions` and `pending_subs`, refuting the claimed invariant at an
observable point between dispatch steps. -/
theorem pubsub_C3_cex :
    Option.map disjointSP
      (runTrace (PubsubConnectionInner.new [] true [] false []) C3trace) = some false := rfl

/-- Claim C3 (amended): the disjointness of `subscriptions` and
`pending_subs` holds at actor creation and is preserved by every observable
dequeue/dispatch step except the dispatch of a `Subscribe` event for a topic
currently present in `subscriptions` (the case the counterexample exhibits,
which the code does not guard against). -/
theorem pubsub_C3_amended :
    (∀ sb fo rv re orx, disjointSP (PubsubConnectionInner.new sb fo rv re orx) = true) ∧
    (∀ s i b s₁, disjointSP s = true → stepAllowed s i = true →
      runStep s i = Outcome.ok b s₁ → disjointSP s₁ = true) := by
  constructor
  · intro sb fo rv re orx
    rfl
  · intro s i b s₁ hinv hallow h
    cases i with
    | msg m => exact handle_message_disjoint s m b s₁ hinv h
    | ev e =>
      cases e with
      | Subscribe t k g =>
        simp only [runStep, handle_event] at h
        have hc := do_send_cases _ _ _ _ h
        rw [disjointSP_iff] at hinv ⊢
        intro p hp
        rw [hc.1] at hp
        replace hp : p ∈ ainsert t (k, g) s.pending_subs := hp
        rw [hc.2.1]
        show acontains p.1 s.subscriptions = false
        have hts : acontains t s.subscriptions = false := by
          simpa [stepAllowed] using hallow
        rcases List.mem_cons.mp hp with hph | hptail
        · rw [hph]
          exact hts
        · have hm := mem_aremove.mp hptail
          exact hinv p hm.1
      | Unsubscribe t =>
        simp only [runStep, handle_event] at h
        have hc := do_send_cases _ _ _ _ h
        rw [disjointSP_iff] at hinv ⊢
        intro p hp
        rw [hc.1] at hp
        rw [hc.2.1]
        exact hinv p hp

/-- Claim C3 witness: from the disjoint state `W3s`, dispatching a
`Subscribe` for the fresh topic `a` keeps the maps disjoint. -/
theorem pubsub_C3_amended_witness : disjointSP W3sAfter = true :=
  pubsub_C3_amended.2 W3s (ActorInput.ev (PubsubEvent.Subscribe "a" ⟨4, true⟩ ⟨4, true⟩))
    true W3sAfter rfl rfl rfl

/-! ### Terminal-state characterization (claim C8) -/

/-- The dispatch never touches the inbound side of the transport model. -/
theorem dispatch_frame (s : PubsubConnectionInner) (mt t : String) (m : RespValue) :
    (dispatch s mt t m).state.recv_end = s.recv_end ∧
    (dispatch s mt t m).state.recv = s.recv := by
  by_cases h1 : mt = "subscribe"
  · subst h1
    simp only [dispatch, if_pos rfl]
    rcases halk : alookup t s.pending_subs with - | ⟨kk, gg⟩
    · simp [halk, Outcome.state]
    · by_cases ha : gg.alive <;> simp [halk, ha, Outcome.state]
  · by_cases h2 : mt = "unsubscribe"
    · subst h2
      simp only [dispatch, if_neg h1, if_pos rfl]
      by_cases hc : acontains t s.subscriptions
      · by_cases hemp : (aremove t s.subscriptions).isEmpty <;>
          simp [hc, hemp, Outcome.state]
      · by_cases hemp : s.subscriptions.isEmpty <;>
          simp [hc, hemp, Outcome.state]
    · by_cases h3 : mt = "message"
      · subst h3
        simp only [dispatch, if_neg h1, if_neg h2, if_pos rfl]
        rcases halk : alookup t s.subscriptions with - | snd
        · simp [halk, Outcome.state]
        · by_cases ha : snd.alive <;> simp [halk, ha, Outcome.state]
      · simp [dispatch, h1, h2, h3, Outcome.state]

/-- The message handler never touches the inbound side of the transport
model. -/
theorem handle_message_frame (s : PubsubConnectionInner) (m : RespValue) :
    (handle_message s m).state.recv_end = s.recv_end ∧
    (handle_message s m).state.recv = s.recv := by
  cases m with
  | Nil => exact ⟨rfl, rfl⟩
  | BulkString str => exact ⟨rfl, rfl⟩
  | Error str => exact ⟨rfl, rfl⟩
  | Integer n => exact ⟨rfl, rfl⟩
  | SimpleString str => exact ⟨rfl, rfl⟩
  | Array items =>
    rcases items with _ | ⟨a, _ | ⟨b₂, _ | ⟨c, _ | ⟨d, tl⟩⟩⟩⟩
    · exact ⟨rfl, rfl⟩
    · exact ⟨rfl, rfl⟩
    · exact ⟨rfl, rfl⟩
    · rcases hb : string_from_resp b₂ with - | str
      · simp [handle_message, hb, Outcome.state]
      · cases a with
        | BulkString bytes =>
          simp only [handle_message, hb]
          exact dispatch_frame s bytes str c
        | Nil => simp [handle_message, hb, Outcome.state]
        | Array l₂ => simp [handle_message, hb, Outcome.state]
        | Error e₂ => simp [handle_message, hb, Outcome.state]
        | Integer n₂ => simp [handle_message, hb, Outcome.state]
        | SimpleString s₂ => simp [handle_message, hb, Outcome.state]
    · exact ⟨rfl, rfl⟩

/-- Successful message handling preserves `recv_end`. -/
theorem handle_message_ok_frame (s : PubsubConnectionInner) (m : RespValue) (b : Bool)
    (s₁ : PubsubConnectionInner) (h : handle_message s m = Outcome.ok b s₁) :
    s₁.recv_end = s.recv_end := by
  have hf := (handle_message_frame s m).1
  rw [h] at hf
  exact hf

/-- The dispatch returns `Ok(false)` exactly on an unsubscribe
acknowledgment that leaves `subscriptions` empty. -/
theorem dispatch_ok_iff (s : PubsubConnectionInner) (mt t : String) (m : RespValue)
    (b : Bool) (s₁ : PubsubConnectionInner) (h : dispatch s mt t m = Outcome.ok b s₁) :
    b = false ↔ (mt = "unsubscribe" ∧ s₁.subscriptions.isEmpty = true) := by
  by_cases h1 : mt = "subscribe"
  · subst h1
    have hne : ¬ ("subscribe" = "unsubscribe") := by decide
    simp only [dispatch, if_pos rfl] at h
    rcases halk : alookup t s.pending_subs with - | ⟨kk, gg⟩
    · rw [halk] at h
      simp at h
      obtain ⟨hb, -⟩ := h
      exact iff_of_false (by simp [← hb]) (fun hcon => hne hcon.1)
    · rw [halk] at h
      by_cases ha : gg.alive
      · simp [ha] at h
        obtain ⟨hb, -⟩ := h
        exact iff_of_false (by simp [← hb]) (fun hcon => hne hcon.1)
      · simp [ha] at h
  · by_cases h2 : mt = "unsubscribe"
    · subst h2
      simp only [dispatch, if_neg h1, if_pos rfl] at h
      by_cases hc : acontains t s.subscriptions
      · by_cases hemp : (aremove t s.subscriptions).isEmpty
        · simp [hc, hemp] at h
          obtain ⟨hb, hs⟩ := h
          subst hs
          exact iff_of_true hb ⟨rfl, hemp⟩
        · simp [hc, hemp] at h
          obtain ⟨hb, hs⟩ := h
          subst hs
          refine iff_of_false (by simp [← hb]) (fun hcon => hemp ?_)
          exact hcon.2
      · by_cases hemp : s.subscriptions.isEmpty
        · simp [hc, hemp] at h
          obtain ⟨hb, hs⟩ := h
          subst hs
          exact iff_of_true hb ⟨rfl, hemp⟩
        · simp [hc, hemp] at h
          obtain ⟨hb, hs⟩ := h
          subst hs
          refine iff_of_false (by simp [← hb]) (fun hcon => hemp ?_)
          exact hcon.2
    · by_cases h3 : mt = "message"
      · subst h3
        have hne : ¬ ("message" = "unsubscribe") := by decide
        simp only [dispatch, if_neg h1, if_neg h2, if_pos rfl] at h
        rcases halk : alookup t s.subscriptions with - | snd
        · rw [halk] at h
          simp at h
          obtain ⟨hb, -⟩ := h
          exact iff_of_false (by simp [← hb]) (fun hcon => hne hcon.1)
        · rw [halk] at h
          by_cases ha : snd.alive
          · simp [ha] at h
            obtain ⟨hb, -⟩ := h
            exact iff_of_false (by simp [← hb]) (fun hcon => hne hcon.1)
          · simp [ha] at h
      · simp only [dispatch, if_neg h1, if_neg h2, if_neg h3] at h
        simp at h
        obtain ⟨hb, -⟩ := h
        exact iff_of_false (by simp [← hb]) (fun hcon => h2 hcon.1)

/-- The message handler returns `Ok(false)` exactly on an unsubscribe
acknowledgment that leaves `subscriptions` empty. -/
theorem handle_message_ok_iff (s : PubsubConnectionInner) (m : RespValue) (b : Bool)
    (s₁ : PubsubConnectionInner) (h : handle_message s m = Outcome.ok b s₁) :
    b = false ↔ (isUnsubAck m = true ∧ s₁.subscriptions.isEmpty = true) := by
  cases m with
  | Nil => simp [handle_message] at h
  | BulkString str => simp [handle_message] at h
  | Error str => simp [handle_message] at h
  | Integer n => simp [handle_message] at h
  | SimpleString str => simp [handle_message] at h
  | Array items =>
    rcases items with _ | ⟨a, _ | ⟨b₂, _ | ⟨c, _ | ⟨d, tl⟩⟩⟩⟩
    · simp [handle_message] at h
    · simp [handle_message] at h
    · simp [handle_message] at h
    · rcases hb : string_from_resp b₂ with - | str
      · simp [handle_message, hb] at h
      · cases a with
        | BulkString bytes =>
          simp only [handle_message, hb] at h
          rw [dispatch_ok_iff s bytes str c b s₁ h]
          simp [isUnsubAck, hb]
        | Nil => simp [handle_message, hb] at h
        | Array l₂ => simp [handle_message, hb] at h
        | Error e₂ => simp [handle_message, hb] at h
        | Integer n₂ => simp [handle_message, hb] at h
        | SimpleString s₂ => simp [handle_message, hb] at h
    · simp [handle_message] at h

/-- With end-of-stream reported by the transport, the inbound drain can only
finish with `Ok(false)` (terminal). -/
theorem handle_messages_go_eos (msgs : List RespValue) :
    ∀ (s : PubsubConnectionInner) (b : Bool) (s₁ : PubsubConnectionInner),
      handle_messages_go msgs s = Outcome.ok b s₁ → s.recv_end = true → b = false := by
  induction msgs with
  | nil =>
    intro s b s₁ h he
    unfold handle_messages_go at h
    simp [he] at h
    obtain ⟨hb, -⟩ := h
    exact hb
  | cons m rest ih =>
    intro s b s₁ h he
    unfold handle_messages_go at h
    cases hm : handle_message { s with recv := rest } m with
    | ok bb ss =>
      rw [hm] at h
      cases bb with
      | true =>
        have h' : handle_messages_go rest ss = Outcome.ok b s₁ := h
        have hre : ss.recv_end = true := by
          have hfr := handle_message_ok_frame { s with recv := rest } m true ss hm
          rw [hfr]
          exact he
        exact ih ss b s₁ h' hre
      | false =>
        have h' : Outcome.ok false ss = Outcome.ok b s₁ := h
        exact (Outcome.ok.inj h').1.symm
    | errorOut ss =>
      rw [hm] at h
      have h' : Outcome.errorOut ss = Outcome.ok b s₁ := h
      exact Outcome.noConfusion h'
    | crashOut ss =>
      rw [hm] at h
      have h' : Outcome.crashOut ss = Outcome.ok b s₁ := h
      exact Outcome.noConfusion h'

/-- When the inbound drain finishes with `Ok(false)` (terminal), either the
transport had reported end-of-stream, or some drained message was an
unsubscribe acknowledgment and `subscriptions` ends empty. -/
theorem handle_messages_go_stop (msgs : List RespValue) :
    ∀ (s s₁ : PubsubConnectionInner),
      handle_messages_go msgs s = Outcome.ok false s₁ →
      s.recv_end = true ∨ (msgs.any isUnsubAck = true ∧ s₁.subscriptions.isEmpty = true) := by
  induction msgs with
  | nil =>
    intro s s₁ h
    by_cases he : s.recv_end
    · exact Or.inl he
    · unfold handle_messages_go at h
      simp [he] at h
  | cons m rest ih =>
    intro s s₁ h
    unfold handle_messages_go at h
    cases hm : handle_message { s with recv := rest } m with
    | ok bb ss =>
      rw [hm] at h
      cases bb with
      | true =>
        have h' : handle_messages_go rest ss = Outcome.ok false s₁ := h
        rcases ih ss s₁ h' with he | hr
        · left
          have hfr := handle_message_ok_frame { s with recv := rest } m true ss hm
          rw [← hfr]
          exact he
        · right
          exact ⟨by simp [hr.1], hr.2⟩
      | false =>
        have h' : Outcome.ok false ss = Outcome.ok false s₁ := h
        obtain ⟨-, hs⟩ := Outcome.ok.inj h'
        subst hs
        right
        have hres := (handle_message_ok_iff { s with recv := rest } m false ss hm).mp rfl
        exact ⟨by simp [hres.1], hres.2⟩
    | errorOut ss =>
      rw [hm] at h
      have h' : Outcome.errorOut ss = Outcome.ok false s₁ := h
      exact Outcome.noConfusion h'
    | crashOut ss =>
      rw [hm] at h
      have h' : Outcome.crashOut ss = Outcome.ok false s₁ := h
      exact Outcome.noConfusion h'

/-- The outbound drain loop never touches the inbound side of the transport
model. -/
theorem hns_loop_frame (evs : List PubsubEvent) :
    ∀ (fl : Bool) (s : PubsubConnectionInner),
      (hns_loop evs fl s).state.recv_end = s.recv_end ∧
      (hns_loop evs fl s).state.recv = s.recv := by
  induction evs with
  | nil => intro fl s; exact ⟨rfl, rfl⟩
  | cons e rest ih =>
    intro fl s
    unfold hns_loop
    cases hm : handle_event { s with out_rx := rest } e with
    | ok bb ss =>
      have hfr := handle_event_frame { s with out_rx := rest } e
      rw [hm] at hfr
      have hfr1 : ss.recv = s.recv := hfr.1
      have hfr2 : ss.recv_end = s.recv_end := hfr.2.1
      cases bb with
      | true =>
        have hih := ih true ss
        exact ⟨hih.1.trans hfr2, hih.2.trans hfr1⟩
      | false => exact ⟨hfr2, hfr1⟩
    | errorOut ss =>
      have hfr := handle_event_frame { s with out_rx := rest } e
      rw [hm] at hfr
      exact ⟨hfr.2.1, hfr.1⟩
    | crashOut ss =>
      have hfr := handle_event_frame { s with out_rx := rest } e
      rw [hm] at hfr
      exact ⟨hfr.2.1, hfr.1⟩

/-- The full outbound drain never touches the inbound side of the transport
model. -/
theorem handle_new_subs_frame (s : PubsubConnectionInner) :
    (handle_new_subs s).state.recv_end = s.recv_end ∧
    (handle_new_subs s).state.recv = s.recv := by
  unfold handle_new_subs
  cases hsp : s.send_pending with
  | none =>
    have h := hns_loop_frame s.out_rx false s
    exact ⟨h.1, h.2⟩
  | some m =>
    cases hds : do_send { s with send_pending := none } m with
    | ok bb ss =>
      have hfr := do_send_frame { s with send_pending := none } m
      rw [hds] at hfr
      have h1 : ss.recv = s.recv := hfr.2.2.1
      have h2 : ss.recv_end = s.recv_end := hfr.2.2.2.1
      simp only [hds]
      cases bb with
      | true =>
        have hih := hns_loop_frame ss.out_rx true ss
        exact ⟨hih.1.trans h2, hih.2.trans h1⟩
      | false => exact ⟨h2, h1⟩
    | errorOut ss =>
      have hfr := do_send_frame { s with send_pending := none } m
      rw [hds] at hfr
      simp only [hds]
      exact ⟨hfr.2.2.2.1, hfr.2.2.1⟩
    | crashOut ss =>
      have hfr := do_send_frame { s with send_pending := none } m
      rw [hds] at hfr
      simp only [hds]
      exact ⟨hfr.2.2.2.1, hfr.2.2.1⟩

/-- Claim C8: a scheduling tick reaches the terminal state exactly when the
transport reports end-of-stream or `subscriptions` is empty immediately
after an unsubscribe acknowledgment processed in that tick: (i) one handled
message yields `Ok(false)` iff it is an unsubscribe acknowledgment leaving
`subscriptions` empty; (ii) with end-of-stream reported, the inbound drain
can only finish terminal; (iii) a terminal inbound drain implies
end-of-stream or an unsubscribe acknowledgment that left `subscriptions`
empty; (iv) a handled message yielding `Ok(false)` stops the drain
terminally at once; (v) a tick returning `Ready` (terminal) implies
end-of-stream or empty `subscriptions`; (vi) a tick returning `NotReady`
(runnable) implies the transport had not reported end-of-stream. -/
theorem pubsub_C8 :
    (∀ (s : PubsubConnectionInner) (m : RespValue) (b : Bool) (s₁ : PubsubConnectionInner),
      handle_message s m = Outcome.ok b s₁ →
        (b = false ↔ (isUnsubAck m = true ∧ s₁.subscriptions.isEmpty = true))) ∧
    (∀ (msgs : List RespValue) (s : PubsubConnectionInner) (b : Bool)
        (s₁ : PubsubConnectionInner),
      handle_messages_go msgs s = Outcome.ok b s₁ → s.recv_end = true → b = false) ∧
    (∀ (msgs : List RespValue) (s s₁ : PubsubConnectionInner),
      handle_messages_go msgs s = Outcome.ok false s₁ →
        s.recv_end = true ∨ (msgs.any isUnsubAck = true ∧ s₁.subscriptions.isEmpty = true)) ∧
    (∀ (s : PubsubConnectionInner) (m : RespValue) (rest : List RespValue)
        (s₁ : PubsubConnectionInner),
      handle_message { s with recv := rest } m = Outcome.ok false s₁ →
        handle_messages_go (m :: rest) s = Outcome.ok false s₁) ∧
    (∀ (s s₁ : PubsubConnectionInner), poll s = PollOutcome.readyDone s₁ →
        s.recv_end = true ∨ s₁.subscriptions.isEmpty = true) ∧
    (∀ (s s₁ : PubsubConnectionInner), poll s = PollOutcome.notReady s₁ →
        s.recv_end = false) := by
  refine ⟨handle_message_ok_iff, fun msgs => handle_messages_go_eos msgs,
    fun msgs => handle_messages_go_stop msgs, ?_, ?_, ?_⟩
  · intro s m rest s₁ h
    unfold handle_messages_go
    rw [h]
  · intro s s₁ hp
    unfold poll at hp
    cases hh : handle_new_subs s with
    | ok fl ss =>
      rw [hh] at hp
      by_cases hfl : fl && !(do_flush ss)
      · simp [hfl] at hp
      · cases hmm : handle_messages ss with
        | ok bb ss₂ =>
          cases bb with
          | true => simp [hfl, hmm] at hp
          | false =>
            simp [hfl, hmm] at hp
            subst hp
            have hstop := handle_messages_go_stop ss.recv ss ss₂ hmm
            rcases hstop with he | hr
            · left
              have hfr := (handle_new_subs_frame s).1
              rw [hh] at hfr
              have hfr2 : ss.recv_end = s.recv_end := hfr
              rw [← hfr2]
              exact he
            · right
              exact hr.2
        | errorOut ss₂ => simp [hfl, hmm] at hp
        | crashOut ss₂ => simp [hfl, hmm] at hp
    | errorOut ss =>
      rw [hh] at hp
      have hp' : PollOutcome.errorOut ss = PollOutcome.readyDone s₁ := hp
      exact PollOutcome.noConfusion hp'
    | crashOut ss =>
      rw [hh] at hp
      have hp' : PollOutcome.crashOut ss = PollOutcome.readyDone s₁ := hp
      exact PollOutcome.noConfusion hp'
  · intro s s₁ hp
    unfold poll at hp
    cases hh : handle_new_subs s with
    | ok fl ss =>
      rw [hh] at hp
      by_cases hfl : fl && !(do_flush ss)
      · simp [hfl] at hp
      · cases hmm : handle_messages ss with
        | ok bb ss₂ =>
          cases bb with
          | false => simp [hfl, hmm] at hp
          | true =>
            cases hre : s.recv_end with
            | false => rfl
            | true =>
              exfalso
              have hfr := (handle_new_subs_frame s).1
              rw [hh] at hfr
              have hfr2 : ss.recv_end = s.recv_end := hfr
              have hssre : ss.recv_end = true := hfr2.trans hre
              have hres := handle_messages_go_eos ss.recv ss true ss₂ hmm hssre
              exact Bool.noConfusion hres
        | errorOut ss₂ => simp [hfl, hmm] at hp
        | crashOut ss₂ => simp [hfl, hmm] at hp
    | errorOut ss =>
      rw [hh] at hp
      have hp' : PollOutcome.errorOut ss = PollOutcome.notReady s₁ := hp
      exact PollOutcome.noConfusion hp'
    | crashOut ss =>
      rw [hh] at hp
      have hp' : PollOutcome.crashOut ss = PollOutcome.notReady s₁ := hp
      exact PollOutcome.noConfusion hp'

/-- Claim C8 witness: the unsubscribe acknowledgment `C2msg` handled on
`baseState` (empty `subscriptions`) stops terminally, and the
characterization identifies it as an unsubscribe acknowledgment leaving
`subscriptions` empty. -/
theorem pubsub_C8_witness :
    isUnsubAck C2msg = true ∧ baseState.subscriptions.isEmpty = true :=
  (pubsub_C8.1 baseState C2msg false baseState rfl).mp rfl
